import Mathlib

/-!
Shallow embedding of the PPT-Generator Flask application (`app.py`).

The application wires four cooperating pieces together:
* `StructureBot.create_slide_structure` (the outline planner, app.py:369-459),
* `ContentBot.generate_slide_content` / `generate_image_prompt` (app.py:461-517),
* `PPTBot.generate_image` (the image acquirer, app.py:109-153),
* `PPTBot.create_powerpoint` plus the five layout routines (app.py:155-367),
all orchestrated by `PPTBot.generate_presentation` (app.py:57-107).

External effects are made explicit: the language-model call `llm.invoke` is a
parameter of type `String → Except PyErr String` (the `.content` of the
response), `json.loads` is a parameter of type `String → Except PyErr Json`,
the Hugging Face `client.text_to_image` call is a parameter of type
`String → Except PyErr (Option PILImage)`, the on-disk state is an explicit
association list `FileSys`, and the `uuid4().hex[:8]` fragments are string
parameters.  Fallible Python code is modelled in the `Except PyErr` monad;
a `try/except` block is a `match` on that monad.
-/

namespace PPTGen

/-- Python exceptions that the embedded code can raise. -/
inductive PyErr where
  | attributeError
  | typeError
  | keyError (key : String)
  | valueError (msg : String)
  | jsonDecodeError
  | invokeFail (msg : String)
  deriving DecidableEq, Repr

/-- Values produced by `json.loads`: the JSON data model (Python lists,
dicts, strings, ints, bools and None after parsing). -/
inductive Json where
  | null
  | bool (b : Bool)
  | num (n : Int)
  | str (s : String)
  | arr (xs : List Json)
  | obj (kvs : List (String × Json))
  deriving Repr

/-- Python `str.split(sep)` for a non-empty separator: `String.splitOn` has
the same cut-at-every-occurrence semantics. -/
def pySplit (s sep : String) : List String :=
  s.splitOn sep

/-- Python truthiness of a string: non-empty strings are truthy. -/
def pyStrTruthy (s : String) : Bool :=
  !(s == "")

/-- Python `needle in hay` for strings (substring test), expressed through
`splitOn`: a non-empty needle occurs in `hay` iff splitting on it yields at
least two segments. -/
def pyInStr (needle hay : String) : Bool :=
  (pySplit hay needle).length ≥ 2

/-- Python `parts[-1]` on the result of `str.split`, which is never the
empty list; the default is unreachable. -/
def pyLast (parts : List String) : String :=
  parts.getLastD ""

/-- Python `slide[key]` on a parsed JSON value: dict lookup, `KeyError` when
the key is absent, `TypeError` when the value is not subscriptable by a
string key. -/
def pyGetItem (j : Json) (key : String) : Except PyErr Json :=
  match j with
  | Json.obj kvs =>
    match kvs.lookup key with
    | some v => Except.ok v
    | none => Except.error (PyErr.keyError key)
  | _ => Except.error PyErr.typeError

/-- Python `value == "lit"` between a parsed JSON value and a string literal:
true exactly for the equal string, false (never an error) otherwise. -/
def jsonEqStr (j : Json) (s : String) : Bool :=
  match j with
  | Json.str t => t == s
  | _ => false

/-- Python `str(value)` for a parsed JSON value as it is interpolated into
the f-string prompts.  String values print verbatim; the scalar constants
print as in Python; containers are abbreviated (they are only ever
interpolated into prompt text handed to the model call, never branched on). -/
def pyStrOf : Json → String
  | Json.str s => s
  | Json.num n => toString n
  | Json.bool b => if b then "True" else "False"
  | Json.null => "None"
  | Json.arr _ => "[...]"
  | Json.obj _ => "\x7b...\x7d"

/-- Python `", ".join(xs)` on a parsed JSON value: requires a list whose
elements are all strings, `TypeError` otherwise. -/
def pyJoin (sep : String) (j : Json) : Except PyErr String :=
  match j with
  | Json.arr xs => do
    let strs ← xs.mapM (fun x =>
      match x with
      | Json.str s => Except.ok s
      | _ => Except.error PyErr.typeError)
    Except.ok (String.intercalate sep strs)
  | _ => Except.error PyErr.typeError

/-- Python `key in slide` on a parsed JSON value: dict key membership, list
element membership, substring test for strings, `TypeError` otherwise. -/
def pyContains (j : Json) (key : String) : Except PyErr Bool :=
  match j with
  | Json.obj kvs => Except.ok (kvs.any (fun kv => kv.1 == key))
  | Json.arr xs => Except.ok (xs.any (fun x => jsonEqStr x key))
  | Json.str s => Except.ok (pyInStr key s)
  | _ => Except.error PyErr.typeError

/-- The assignment `title_frame.text = slide_data[...]` in python-pptx
requires a `str`; a non-string raises. -/
def asPyStr : Json → Except PyErr String
  | Json.str s => Except.ok s
  | _ => Except.error PyErr.typeError

/-- The triple-fence marker string used at app.py:402-410. -/
def tripleFence : String := "```"

/-- The fenced-JSON marker string used at app.py:403. -/
def fenceJson : String := "```json"

/-- Model of app.py:403: `structure_text.split("```json").split("```")`.
The first `.split` has already produced a Python list, and list objects have
no attribute `split`, so this attribute access raises `AttributeError`
before any result can be produced. -/
def listSplit (_parts : List String) (_sep : String) : Except PyErr String :=
  Except.error PyErr.attributeError

/-- The fence-extraction block, app.py:401-410.  Note that the first guard
(app.py:402) is the literal `if "```":`, a non-empty string constant, so it
is taken for every input, and its body (app.py:403, `listSplit`) raises. -/
def extractStructureText (structure_text : String) : Except PyErr String :=
  if pyStrTruthy tripleFence then
    listSplit (pySplit structure_text fenceJson) tripleFence
  else if pyInStr tripleFence structure_text then
    let parts := pySplit structure_text tripleFence
    if parts.length ≥ 3 then Except.ok (parts.getD 1 (""))
    else Except.ok (pyLast parts)
  else
    Except.ok structure_text

/-- The prompt built by `StructureBot.create_slide_structure`
(app.py:371-395). -/
def structurePrompt (topic : String) (slides_count : Nat) : String :=
  "\n        Create a structure for a " ++ toString slides_count ++
  "-slide PowerPoint presentation on \"" ++ topic ++ "\".\n        \n" ++
  "        For each slide, provide:\n" ++
  "        1. Title (concise and engaging)\n" ++
  "        2. Design type (choose from: title, content, image_focus, conclusion)\n" ++
  "        3. Key points to cover\n        \n" ++
  "        Make the presentation flow logically with:\n" ++
  "        - Slide 1: Always title slide introducing the topic\n" ++
  "        - Middle slides: Mix of content and image_focus slides\n" ++
  "        - Last slide: Always conclusion slide\n        \n" ++
  "        Return ONLY a valid JSON array with this exact format:\n" ++
  "        [\n            \x7b\n" ++
  "                \"slide_number\": 1,\n" ++
  "                \"title\": \"Slide Title\",\n" ++
  "                \"design_type\": \"title\",\n" ++
  "                \"key_points\": [\"point1\", \"point2\", \"point3\"]\n" ++
  "            \x7d\n        ]\n        \n" ++
  "        Do not include any text before or after the JSON.\n        "

/-- The required keys validated at app.py:423. -/
def requiredSlideKeys : List String :=
  ["slide_number", "title", "design_type", "key_points"]

/-- Python `all(key in slide for key in [...])` (app.py:423): short-circuits
on the first missing key. -/
def pyAllKeys (slide : Json) : List String → Except PyErr Bool
  | [] => Except.ok true
  | k :: ks => do
    let b ← pyContains slide k
    if b then pyAllKeys slide ks else Except.ok false

/-- The validation loop of app.py:422-424. -/
def validateSlides : List Json → Except PyErr Unit
  | [] => Except.ok ()
  | s :: rest => do
    let ok ← pyAllKeys s requiredSlideKeys
    if ok then validateSlides rest
    else Except.error (PyErr.valueError ("Each slide must have required keys"))

/-- The `try:` body of `StructureBot.create_slide_structure`
(app.py:397-426): invoke the model, strip, extract the fenced block, strip,
`json.loads`, check it is a list, check the required keys, return it. -/
def createSlideStructureTry (jl : String → Except PyErr Json)
    (inv : String → Except PyErr String)
    (topic : String) (slides_count : Nat) : Except PyErr (List Json) := do
  let content ← inv (structurePrompt topic slides_count)
  let structure_text := content.trim
  let structure_text ← extractStructureText structure_text
  let structure_text := structure_text.trim
  let parsed ← jl structure_text
  let slides ← (match parsed with
    | Json.arr xs => Except.ok xs
    | _ => Except.error (PyErr.valueError ("Structure must be a list")))
  let _ ← validateSlides slides
  Except.ok slides

/-- One slide of the deterministic fallback structure (app.py:434-457):
index 0 is the title slide, index `slides_count - 1` the conclusion slide,
interior indices alternate content / image_focus on the parity of `i`. -/
def fallbackSlide (topic : String) (slides_count i : Nat) : Json :=
  if i = 0 then
    Json.obj [("slide_number", Json.num 1),
      ("title", Json.str ("Introduction to " ++ topic)),
      ("design_type", Json.str ("title")),
      ("key_points", Json.arr [Json.str ("Overview"), Json.str ("Objectives"),
        Json.str ("Key Topics")])]
  else if i = slides_count - 1 then
    Json.obj [("slide_number", Json.num (i + 1)),
      ("title", Json.str ("Conclusion")),
      ("design_type", Json.str ("conclusion")),
      ("key_points", Json.arr [Json.str ("Summary"), Json.str ("Key Takeaways"),
        Json.str ("Next Steps")])]
  else
    Json.obj [("slide_number", Json.num (i + 1)),
      ("title", Json.str (topic ++ " - Part " ++ toString i)),
      ("design_type", Json.str (if i % 2 = 1 then "content" else "image_focus")),
      ("key_points", Json.arr [Json.str ("Main concepts"), Json.str ("Examples"),
        Json.str ("Applications")])]

/-- The deterministic fallback structure loop of app.py:432-459: a pure
function of `topic` and `slides_count` alone. -/
def fallbackStructure (topic : String) (slides_count : Nat) : List Json :=
  (List.range slides_count).map (fallbackSlide topic slides_count)

/-- `StructureBot.create_slide_structure` (app.py:370-459): the `try:` body
on success, the deterministic fallback on any exception. -/
def create_slide_structure (jl : String → Except PyErr Json)
    (inv : String → Except PyErr String)
    (topic : String) (slides_count : Nat) : List Json :=
  match createSlideStructureTry jl inv topic slides_count with
  | Except.ok s => s
  | Except.error _ => fallbackStructure topic slides_count

/-- The prompt built by `ContentBot.generate_slide_content` (app.py:463-484);
the interpolations happen left to right: title, design type, joined key
points.  The joined key points are computed before the call (`pyJoin` can
raise, as `", ".join` can in Python) and passed in. -/
def contentPrompt (topic title design_type joined : String) : String :=
  "\n    You are a professional presentation writer tasked with creating highly engaging and novel slide content. \n" ++
  "    Your goal is to transform the topic into compelling, audience-ready text that goes beyond generic explanations. \n\n" ++
  "    Topic: \"" ++ topic ++ "\"\n" ++
  "    Slide Title: " ++ title ++ "\n" ++
  "    Design Type: " ++ design_type ++ "\n" ++
  "    Key Points to Cover: " ++ joined ++ "\n\n" ++
  "    Instructions:\n" ++
  "    - Write 2-3 cohesive paragraphs that balance clarity with originality.\n" ++
  "    - Present the information in a narrative style that feels fresh and thought-provoking, \n" ++
  "      avoiding cliches or textbook-like phrasing.\n" ++
  "    - Use vivid analogies, real-world examples, or surprising insights to make the content memorable.\n" ++
  "    - Maintain a professional, engaging tone that aligns with the design type \n" ++
  "      (e.g., formal for informational slides, visionary for conclusion slides, \n" ++
  "      energetic for introductory slides).\n" ++
  "    - Ensure the content is concise enough for a presentation, yet rich in substance.\n" ++
  "    - Focus on delivering value to the audience by highlighting practical relevance, \n" ++
  "      broader implications, or unexpected connections.\n" ++
  "    - Return only the pure content text (no formatting, bullet points, or markdown).\n    "

/-- `ContentBot.generate_slide_content` (app.py:462-491).  The prompt
construction subscripts `slide_info` outside the `try:`, so missing keys
propagate; a failing model call is degraded to the deterministic fallback
sentence built from the already-computed lookups. -/
def generate_slide_content (inv : String → Except PyErr String)
    (slide_info : Json) (topic : String) : Except PyErr String := do
  let title ← pyGetItem slide_info ("title")
  let design_type ← pyGetItem slide_info ("design_type")
  let key_points ← pyGetItem slide_info ("key_points")
  let joined ← pyJoin (", ") key_points
  let prompt := contentPrompt topic (pyStrOf title) (pyStrOf design_type) joined
  match inv prompt with
  | Except.ok content => Except.ok content.trim
  | Except.error _ =>
    Except.ok ("Content about " ++ pyStrOf title ++ " related to " ++ topic ++
      ". This slide covers " ++ joined ++ ".")

/-- The prompt built by `ContentBot.generate_image_prompt` (app.py:494-510). -/
def imagePromptText (topic title design_type : String) : String :=
  "\n        Create a detailed image prompt for generating a professional image for a PowerPoint slide.\n        \n" ++
  "        Slide title: " ++ title ++ "\n" ++
  "        Topic: " ++ topic ++ "\n" ++
  "        Design type: " ++ design_type ++ "\n        \n" ++
  "        The image should be:\n" ++
  "        - Professional and suitable for business presentations\n" ++
  "        - High quality and visually appealing\n" ++
  "        - Relevant to the slide topic\n" ++
  "        - Clean and modern design\n" ++
  "        - No text or words in the image\n        \n" ++
  "        Write a concise but descriptive prompt (max 50 words) for an AI image generator.\n" ++
  "        Only return the prompt text, no quotes or extra formatting.\n        "

/-- `ContentBot.generate_image_prompt` (app.py:493-517). -/
def generate_image_prompt (inv : String → Except PyErr String)
    (slide_info : Json) (topic : String) : Except PyErr String := do
  let title ← pyGetItem slide_info ("title")
  let design_type ← pyGetItem slide_info ("design_type")
  let prompt := imagePromptText topic (pyStrOf title) (pyStrOf design_type)
  match inv prompt with
  | Except.ok content => Except.ok content.trim
  | Except.error _ =>
    Except.ok ("Professional illustration about " ++ topic ++
      ", modern design, high quality, business presentation style")

/-- What a persisted file looks like to the checks the code performs:
`os.path.getsize` and PIL `Image.verify`. -/
structure FileInfo where
  size : Nat
  validRaster : Bool
  deriving DecidableEq, Repr

/-- The on-disk state, as an association list from path to file. -/
def FileSys : Type := List (String × FileInfo)

/-- `os.path.exists` / reading a file back. -/
def fsLookup (fs : FileSys) (path : String) : Option FileInfo :=
  List.lookup path fs

/-- Writing a file (`image.save`): the new entry shadows any old one. -/
def fsWrite (fs : FileSys) (path : String) (info : FileInfo) : FileSys :=
  (path, info) :: fs

/-- The PIL image object returned by `client.text_to_image`, described by
what `image.save` will persist for it: the byte size and whether the bytes
decode as a structurally valid raster image. -/
structure PILImage where
  persistSize : Nat
  persistValid : Bool
  deriving DecidableEq, Repr

/-- The prompt enhancement at app.py:116. -/
def enhancedPrompt (prompt : String) : String :=
  prompt ++ ", high quality, professional, clean design, presentation style, no text"

/-- `PPTBot.generate_image` (app.py:109-153), the image acquirer.  The whole
body sits in a `try/except` that returns `None`, so the function never
raises; `client` unavailability returns `None`; a falsy `image` returns
`None` before any file is written; otherwise the image is saved under
`static/images/slide_<n>_<uuid>.png` and, after an existence check only
(app.py:142 - neither size nor raster validity is re-checked here), the
relative reference `images/<filename>` is returned. -/
def generate_image (clientAvailable : Bool)
    (t2i : String → Except PyErr (Option PILImage))
    (fs : FileSys) (prompt : String) (slide_number : Nat) (uuidHex : String) :
    Option String × FileSys :=
  if !clientAvailable then (none, fs)
  else
    match t2i (enhancedPrompt prompt) with
    | Except.error _ => (none, fs)
    | Except.ok none => (none, fs)
    | Except.ok (some image) =>
      let image_filename := "slide_" ++ toString slide_number ++ "_" ++ uuidHex ++ ".png"
      let image_path := "static/images/" ++ image_filename
      let fs2 := fsWrite fs image_path ⟨image.persistSize, image.persistValid⟩
      if (fsLookup fs2 image_path).isSome then
        (some ("images/" ++ image_filename), fs2)
      else
        (none, fs2)

/-- A shape rectangle, in inches (`Inches(...)` arguments). -/
structure Rect where
  left : Rat
  top : Rat
  width : Rat
  height : Rat
  deriving DecidableEq, Repr

/-- A shape placed on a slide by the layout routines. -/
inductive Element where
  | textbox (text : String) (r : Rect)
  | picture (path : String) (r : Rect)
  | shape (r : Rect)
  deriving DecidableEq, Repr

/-- One record of `slides_data` (app.py:71-78): title and design type are
the raw values subscripted out of the structure dict. -/
structure SlideData where
  slide_number : Nat
  title : Json
  design_type : Json
  content : String
  image_prompt : String
  image_path : Option String

/-- Python truthiness of `slide_data['image_path']`: `None` and the empty
string are falsy. -/
def imagePathTruthy : Option String → Bool
  | none => false
  | some s => !(s == "")

/-- `PPTBot.add_image_to_slide` (app.py:229-269): falsy path, missing file,
zero-byte file and invalid raster data are all rejected (returning `False`,
modelled as `none`); otherwise the picture is placed.  A relative path is
joined under `static/`. -/
def add_image_to_slide (fs : FileSys) (image_path : Option String) (r : Rect) :
    Option Element :=
  match image_path with
  | none => none
  | some p =>
    if p == "" then none
    else
      let full := if p.startsWith ("/") then p else "static/" ++ p
      match fsLookup fs full with
      | none => none
      | some info =>
        if info.size = 0 then none
        else if !info.validRaster then none
        else some (Element.picture full r)

/-- `PPTBot.add_title_slide_content` (app.py:271-289): subtitle textbox with
the content truncated at 100 characters, then the optional image. -/
def add_title_slide_content (fs : FileSys) (sd : SlideData) : List Element :=
  let subtitleText :=
    if sd.content.length > 100 then sd.content.take 100 ++ "..." else sd.content
  [Element.textbox subtitleText ⟨2, 2.5, 12, 1⟩] ++
    (if imagePathTruthy sd.image_path then
      (add_image_to_slide fs sd.image_path ⟨6, 4, 4, 3⟩).toList
    else [])

/-- `PPTBot.add_content_slide` (app.py:291-310): content textbox on the
left, then the optional image on the right. -/
def add_content_slide (fs : FileSys) (sd : SlideData) : List Element :=
  [Element.textbox sd.content ⟨0.5, 2, 7, 6⟩] ++
    (if imagePathTruthy sd.image_path then
      (add_image_to_slide fs sd.image_path ⟨8.5, 2, 6.5, 5⟩).toList
    else [])

/-- `PPTBot.add_image_focus_slide` (app.py:312-332): the optional large
image, then the caption textbox with the content truncated at 150
characters. -/
def add_image_focus_slide (fs : FileSys) (sd : SlideData) : List Element :=
  (if imagePathTruthy sd.image_path then
    (add_image_to_slide fs sd.image_path ⟨2, 2, 12, 6⟩).toList
  else []) ++
  [Element.textbox
    (if sd.content.length > 150 then sd.content.take 150 ++ "..." else sd.content)
    ⟨1, 8.2, 14, 0.8⟩]

/-- `PPTBot.add_conclusion_slide` (app.py:334-364): centered content
textbox, the optional image, and the decorative rounded rectangle (whose
own `try/except` only logs, so the shape step never fails the slide). -/
def add_conclusion_slide (fs : FileSys) (sd : SlideData) : List Element :=
  [Element.textbox sd.content ⟨2, 2.5, 12, 4⟩] ++
    (if imagePathTruthy sd.image_path then
      (add_image_to_slide fs sd.image_path ⟨6, 6.5, 4, 2⟩).toList
    else []) ++
    [Element.shape ⟨7, 7, 2, 0.5⟩]

/-- `PPTBot.add_default_slide` (app.py:366-367): delegates to
`add_content_slide`. -/
def add_default_slide (fs : FileSys) (sd : SlideData) : List Element :=
  add_content_slide fs sd

/-- The design-type dispatch of app.py:187-196, as the pure element list the
chosen routine produces. -/
def dispatchSlideBody (fs : FileSys) (sd : SlideData) : List Element :=
  if jsonEqStr sd.design_type ("title") then add_title_slide_content fs sd
  else if jsonEqStr sd.design_type ("content") then add_content_slide fs sd
  else if jsonEqStr sd.design_type ("image_focus") then add_image_focus_slide fs sd
  else if jsonEqStr sd.design_type ("conclusion") then add_conclusion_slide fs sd
  else add_default_slide fs sd

/-- The body renderer used by the real assembler: the dispatch never raises
(each routine is total in the model, as each guards its own hazards). -/
def renderSlideBody (fs : FileSys) (sd : SlideData) : Except PyErr (List Element) :=
  Except.ok (dispatchSlideBody fs sd)

/-- One slide of the assembled deck: the centered bold title textbox added
at app.py:171-183 (always present), and the elements the layout routine
added (empty when the routine raised and the loop issued `continue`). -/
structure RenderedSlide where
  titleText : String
  body : List Element
  deriving DecidableEq, Repr

/-- The per-slide loop of app.py:164-204.  The title textbox assignment at
app.py:176 happens outside the inner `try:`, so a non-string title
propagates to the outer handler; a failure of the dispatched layout routine
is caught at app.py:200-204 and the loop continues, leaving the slide
title-only. -/
def buildDeck (renderBody : SlideData → Except PyErr (List Element)) :
    List SlideData → Except PyErr (List RenderedSlide)
  | [] => Except.ok []
  | sd :: rest => do
    let t ← asPyStr sd.title
    let body :=
      match renderBody sd with
      | Except.ok es => es
      | Except.error _ => []
    let deck ← buildDeck renderBody rest
    Except.ok (⟨t, body⟩ :: deck)

/-- The saved file name of app.py:207:
`topic` with spaces and slashes replaced by underscores, the uuid fragment,
and the `.pptx` extension. -/
def pptFilename (topic uuid : String) : String :=
  ((topic.replace (" ") ("_")).replace ("/") ("_")) ++ "_" ++ uuid ++ ".pptx"

/-- `PPTBot.create_powerpoint` (app.py:155-227), generic in the body
renderer.  `prs.save` and the subsequent `os.path.exists` check
(app.py:213-219) are local disk writes, modelled as succeeding; the result
pairs the returned reference `presentations/<filename>` with the saved
deck, and any exception escaping the slide loop is caught by the outer
handler, which returns `None`. -/
def create_powerpoint_with (renderBody : SlideData → Except PyErr (List Element))
    (slides_data : List SlideData) (topic uuid : String) :
    Option (String × List RenderedSlide) :=
  match buildDeck renderBody slides_data with
  | Except.ok deck => some ("presentations/" ++ pptFilename topic uuid, deck)
  | Except.error _ => none

/-- `PPTBot.create_powerpoint` with the real dispatch as body renderer. -/
def create_powerpoint (fs : FileSys) (slides_data : List SlideData)
    (topic uuid : String) : Option (String × List RenderedSlide) :=
  create_powerpoint_with (renderSlideBody fs) slides_data topic uuid

/-- The result dict of `PPTBot.generate_presentation` (app.py:93-107). -/
structure GenResult where
  success : Bool
  slides_data : List SlideData
  ppt_path : Option String
  error : Option String
  message : String

/-- Python `str(e)` for the error stored in the failure result. -/
def pyErrMessage : PyErr → String
  | PyErr.attributeError => "list object has no attribute split"
  | PyErr.typeError => "TypeError"
  | PyErr.keyError k => k
  | PyErr.valueError m => m
  | PyErr.jsonDecodeError => "Expecting value"
  | PyErr.invokeFail m => m

/-- The step-2 loop of app.py:65-78: for each structure entry, in order,
generate the slide content, generate the image prompt, then subscript the
title and the design type into the `slides_data` record; `image_path`
starts as `None`. -/
def buildSlidesData (inv : String → Except PyErr String) (topic : String) :
    Nat → List Json → Except PyErr (List SlideData)
  | _, [] => Except.ok []
  | i, slide_info :: rest => do
    let content ← generate_slide_content inv slide_info topic
    let image_prompt ← generate_image_prompt inv slide_info topic
    let title ← pyGetItem slide_info ("title")
    let design_type ← pyGetItem slide_info ("design_type")
    let tail ← buildSlidesData inv topic (i + 1) rest
    Except.ok (⟨i + 1, title, design_type, content, image_prompt, none⟩ :: tail)

/-- The step-3 loop of app.py:82-87: when the image client is available,
acquire an image for each slide and store the resulting reference (possibly
`None`); otherwise leave the records untouched. -/
def acquireImages (clientAvailable : Bool)
    (t2i : String → Except PyErr (Option PILImage)) (uuidImg : Nat → String) :
    List SlideData → FileSys → List SlideData × FileSys
  | [], fs => ([], fs)
  | sd :: rest, fs =>
    if clientAvailable then
      let r := generate_image clientAvailable t2i fs sd.image_prompt
        sd.slide_number (uuidImg sd.slide_number)
      let t := acquireImages clientAvailable t2i uuidImg rest r.2
      ({ sd with image_path := r.1 } :: t.1, t.2)
    else
      let t := acquireImages clientAvailable t2i uuidImg rest fs
      (sd :: t.1, t.2)

/-- The `try:` body of `PPTBot.generate_presentation` (app.py:58-98). -/
def generatePresentationTry (jl : String → Except PyErr Json)
    (inv : String → Except PyErr String) (clientAvailable : Bool)
    (t2i : String → Except PyErr (Option PILImage)) (fs : FileSys)
    (uuidImg : Nat → String) (uuidPpt : String)
    (topic : String) (slides_count : Nat) :
    Except PyErr (List SlideData × Option String × FileSys) := do
  let slide_structure := create_slide_structure jl inv topic slides_count
  let slides_data ← buildSlidesData inv topic 0 slide_structure
  let step3 := acquireImages clientAvailable t2i uuidImg slides_data fs
  let pptRes := create_powerpoint step3.2 step3.1 topic uuidPpt
  Except.ok (step3.1, pptRes.map Prod.fst, step3.2)

/-- `PPTBot.generate_presentation` (app.py:57-107): the pipeline entry
point.  Any exception escaping the `try:` body is converted to the failure
dict; otherwise the success dict is returned. -/
def generate_presentation (jl : String → Except PyErr Json)
    (inv : String → Except PyErr String) (clientAvailable : Bool)
    (t2i : String → Except PyErr (Option PILImage)) (fs : FileSys)
    (uuidImg : Nat → String) (uuidPpt : String)
    (topic : String) (slides_count : Nat) : GenResult × FileSys :=
  match generatePresentationTry jl inv clientAvailable t2i fs uuidImg uuidPpt
      topic slides_count with
  | Except.ok (slides_data, ppt_path, fs2) =>
    (⟨true, slides_data, ppt_path, none, "Presentation generated successfully!"⟩, fs2)
  | Except.error e =>
    (⟨false, [], none, some (pyErrMessage e), "Error generating presentation"⟩, fs)

/-! ### Helper lemmas -/

/-- The extraction block raises `AttributeError` for every input: the guard
at app.py:402 tests the truthiness of the literal three-backtick string. -/
theorem extractStructureText_error (s : String) :
    extractStructureText s = Except.error PyErr.attributeError := by
  simp [extractStructureText, pyStrTruthy, tripleFence, listSplit]

/-- The `try:` body of the outline planner fails for every model behaviour:
a failing call propagates, and every returned content hits the
`AttributeError` of the extraction block. -/
theorem createSlideStructureTry_error (jl : String → Except PyErr Json)
    (inv : String → Except PyErr String) (topic : String) (n : Nat) :
    ∃ e, createSlideStructureTry jl inv topic n = Except.error e := by
  unfold createSlideStructureTry
  cases h : inv (structurePrompt topic n) with
  | error e => exact ⟨e, by simp [h, Bind.bind, Except.bind]⟩
  | ok content =>
    exact ⟨PyErr.attributeError,
      by simp [h, extractStructureText_error, Bind.bind, Except.bind]⟩

/-- The outline planner returns the deterministic fallback for every model
behaviour and every parser behaviour. -/
theorem create_slide_structure_eq_fallback (jl : String → Except PyErr Json)
    (inv : String → Except PyErr String) (topic : String) (n : Nat) :
    create_slide_structure jl inv topic n = fallbackStructure topic n := by
  obtain ⟨e, he⟩ := createSlideStructureTry_error jl inv topic n
  simp [create_slide_structure, he]

/-! ### Claim theorems -/

/-- C10: for every model response string whatsoever (fenced or unfenced,
valid or invalid JSON) and every parser behaviour,
`create_slide_structure` returns the deterministic fallback structure: the
extraction branch guarding the parsed-model path is taken unconditionally
(its guard is the truthy literal at app.py:402) and always raises
`AttributeError` (app.py:403) before a parsed model outline can be
returned, so the successful-parse path never produces the result. -/
theorem C10_model_path_dead_always_fallback :
    (∀ (jl : String → Except PyErr Json) (inv : String → Except PyErr String)
      (topic : String) (n : Nat),
      create_slide_structure jl inv topic n = fallbackStructure topic n)
    ∧ (∀ (jl : String → Except PyErr Json) (content topic : String) (n : Nat),
      createSlideStructureTry jl (fun _ => Except.ok content) topic n =
        Except.error PyErr.attributeError) := by
  constructor
  · intro jl inv topic n
    exact create_slide_structure_eq_fallback jl inv topic n
  · intro jl content topic n
    simp [createSlideStructureTry, extractStructureText_error, Bind.bind,
      Except.bind]

/-- C5: for every topic, every slide count in `[3, 20]` and every model and
parser behaviour (raising calls, unfenced invalid JSON, non-list JSON and
incomplete-key JSON are all instances), the outline planner never raises to
the caller (it is a total function into `List Json`) and returns the
deterministic fallback list of exactly `slide_count` specs. -/
theorem C5_plan_degrades_to_fallback (jl : String → Except PyErr Json)
    (inv : String → Except PyErr String) (topic : String) (n : Nat)
    (h3 : 3 ≤ n) (h20 : n ≤ 20) :
    create_slide_structure jl inv topic n = fallbackStructure topic n
    ∧ (fallbackStructure topic n).length = n := by
  exact ⟨create_slide_structure_eq_fallback jl inv topic n,
    by simp [fallbackStructure]⟩

/-- A model behaviour from the C5 claim text: an unfenced, syntactically
invalid JSON response. -/
def unfencedInvalidInvoke : String → Except PyErr String :=
  fun _ => Except.ok ("here is your outline: slide one, slide two")

/-- A `json.loads` behaviour that fails on every input, as it would on the
unfenced invalid response. -/
def failJsonLoads : String → Except PyErr Json :=
  fun _ => Except.error PyErr.jsonDecodeError

/-- Witness for C5 at topic "Quantum Computing", slide count 5, a model
returning unfenced invalid JSON and a failing parser. -/
theorem C5_plan_degrades_to_fallback_witness :
    3 ≤ 5 ∧ 5 ≤ 20
    ∧ (create_slide_structure failJsonLoads unfencedInvalidInvoke
        ("Quantum Computing") 5 = fallbackStructure ("Quantum Computing") 5
      ∧ (fallbackStructure ("Quantum Computing") 5).length = 5) :=
  ⟨by decide, by decide,
    C5_plan_degrades_to_fallback failJsonLoads unfencedInvalidInvoke
      ("Quantum Computing") 5 (by decide) (by decide)⟩

/-- C3: for every slide count in `[3, 20]` and every topic, the
deterministic fallback (a pure function of topic and slide count alone, by
its very signature) produces exactly `slide_count` specs: element 0 is the
title slide with key points Overview / Objectives / Key Topics, element
`slide_count - 1` is the conclusion slide with key points Summary / Key
Takeaways / Next Steps, and every interior element alternates content /
image_focus on the parity of its index with key points Main concepts /
Examples / Applications. -/
theorem C3_fallback_structure_shape (topic : String) (n : Nat)
    (h3 : 3 ≤ n) (h20 : n ≤ 20) :
    (fallbackStructure topic n).length = n
    ∧ (fallbackStructure topic n)[0]? =
        some (Json.obj [("slide_number", Json.num 1),
          ("title", Json.str ("Introduction to " ++ topic)),
          ("design_type", Json.str ("title")),
          ("key_points", Json.arr [Json.str ("Overview"),
            Json.str ("Objectives"), Json.str ("Key Topics")])])
    ∧ (fallbackStructure topic n)[n - 1]? =
        some (Json.obj [("slide_number", Json.num n),
          ("title", Json.str ("Conclusion")),
          ("design_type", Json.str ("conclusion")),
          ("key_points", Json.arr [Json.str ("Summary"),
            Json.str ("Key Takeaways"), Json.str ("Next Steps")])])
    ∧ (∀ i, 0 < i → i < n - 1 →
        (fallbackStructure topic n)[i]? =
          some (Json.obj [("slide_number", Json.num (i + 1)),
            ("title", Json.str (topic ++ " - Part " ++ toString i)),
            ("design_type",
              Json.str (if i % 2 = 1 then "content" else "image_focus")),
            ("key_points", Json.arr [Json.str ("Main concepts"),
              Json.str ("Examples"), Json.str ("Applications")])])) := by
  refine ⟨by simp [fallbackStructure], ?_, ?_, ?_⟩
  · rw [fallbackStructure, List.getElem?_map, List.getElem?_range (by omega)]
    simp [fallbackSlide]
  · rw [fallbackStructure, List.getElem?_map, List.getElem?_range (by omega)]
    have h0 : ¬(n - 1 = 0) := by omega
    have hc : ((n - 1 : Nat) : Int) + 1 = (n : Int) := by omega
    simp [fallbackSlide, h0, hc]
  · intro i hi1 hi2
    rw [fallbackStructure, List.getElem?_map, List.getElem?_range (by omega)]
    have h0 : ¬(i = 0) := by omega
    have hl : ¬(i = n - 1) := by omega
    simp [fallbackSlide, h0, hl]

/-- Witness for C3 at topic "Renewable Energy", slide count 5, interior
index 2 (even parity, hence image_focus). -/
theorem C3_fallback_structure_shape_witness :
    (fallbackStructure ("Renewable Energy") 5).length = 5
    ∧ (fallbackStructure ("Renewable Energy") 5)[2]? =
        some (Json.obj [("slide_number", Json.num (2 + 1)),
          ("title", Json.str ("Renewable Energy" ++ " - Part " ++ toString 2)),
          ("design_type",
            Json.str (if 2 % 2 = 1 then "content" else "image_focus")),
          ("key_points", Json.arr [Json.str ("Main concepts"),
            Json.str ("Examples"), Json.str ("Applications")])]) :=
  ⟨(C3_fallback_structure_shape ("Renewable Energy") 5 (by decide) (by decide)).1,
    (C3_fallback_structure_shape ("Renewable Energy") 5 (by decide)
      (by decide)).2.2.2 2 (by decide) (by decide)⟩

/-- A model response wrapping a valid JSON array in two triple-fence
markers: the happy-path scenario of the fence-extraction claim. -/
def fencedResponse : String :=
  "```json\n[\x7b\"slide_number\": 1, \"title\": \"Intro\", \"design_type\": \"title\", \"key_points\": [\"a\", \"b\", \"c\"]\x7d]\n```"

/-- C1 (code bug): the claim describes the intended extraction policy, but
the code cannot perform it.  The guard at app.py:402 is the truthy string
literal `"```"` (not a membership test on the response), so the branch is
taken for every response, and its body (app.py:403) invokes `.split` on the
list produced by the first `str.split`, which raises `AttributeError`.
Hence, on a response with two fence markers around valid JSON, the
extraction raises instead of yielding the interior text, and the planner
returns the deterministic fallback, not the round-tripped parsed list. -/
theorem C1_fence_extraction_code_bug :
    extractStructureText fencedResponse.trim =
      Except.error PyErr.attributeError
    ∧ (∀ jl : String → Except PyErr Json,
        create_slide_structure jl (fun _ => Except.ok fencedResponse)
          ("Solar Power") 4 = fallbackStructure ("Solar Power") 4) :=
  ⟨extractStructureText_error fencedResponse.trim,
    fun jl => create_slide_structure_eq_fallback jl
      (fun _ => Except.ok fencedResponse) ("Solar Power") 4⟩

/-- An image service whose payload persists as a zero-byte, structurally
invalid file. -/
def corruptT2I : String → Except PyErr (Option PILImage) :=
  fun _ => Except.ok (some ⟨0, false⟩)

/-- C4 counterexample: for a service payload that persists as a zero-byte,
corrupt file, `generate_image` still returns a non-empty reference after
the persist attempt, because app.py:142 re-checks only existence, not byte
length or raster validity.  This refutes the claimed invariant. -/
theorem C4_counterexample_zero_byte_ref :
    (generate_image true corruptT2I [] ("sunset") 2 ("deadbeef")).1 =
      some ("images/slide_2_deadbeef.png")
    ∧ fsLookup (generate_image true corruptT2I [] ("sunset") 2 ("deadbeef")).2
        ("static/" ++ "images/slide_2_deadbeef.png") =
      some ⟨0, false⟩ := by
  constructor <;> rfl

/-- Helper: the reference returned by the acquirer always has the
`images/` prefix, hence is non-empty. -/
theorem images_prefix_ne_empty (s : String) : "images/" ++ s ≠ "" := by
  intro h
  have hlen := congrArg String.length h
  simp [String.length_append] at hlen
  exact absurd hlen.1 (by decide)

/-- Helper: reading back the path just written returns the written file. -/
theorem fsLookup_write_self (fs : FileSys) (p : String) (i : FileInfo) :
    fsLookup (fsWrite fs p i) p = some i := by
  simp [fsLookup, fsWrite, List.lookup]

/-- Helper: with the client available, the acquirer is determined by the
service outcome; on a produced image the file is written and the existence
re-check succeeds, so the reference is returned. -/
theorem generate_image_spec (t2i : String → Except PyErr (Option PILImage))
    (fs : FileSys) (prompt : String) (slide_number : Nat) (uuidHex : String) :
    generate_image true t2i fs prompt slide_number uuidHex =
      match t2i (enhancedPrompt prompt) with
      | Except.error _ => (none, fs)
      | Except.ok none => (none, fs)
      | Except.ok (some img) =>
        (some ("images/" ++
            ("slide_" ++ toString slide_number ++ "_" ++ uuidHex ++ ".png")),
          fsWrite fs
            ("static/images/" ++
              ("slide_" ++ toString slide_number ++ "_" ++ uuidHex ++ ".png"))
            ⟨img.persistSize, img.persistValid⟩) := by
  unfold generate_image
  cases t2i (enhancedPrompt prompt) with
  | error e => rfl
  | ok o =>
    cases o with
    | none => rfl
    | some img => simp [fsLookup_write_self]

/-- C4 amended: whenever the image acquirer returns a non-empty file
reference, the referenced file exists on disk under `static/`; byte length
and raster validity are NOT verified by the acquirer (a zero-byte or
corrupt persisted payload still yields the reference) — those checks are
performed later, by `add_image_to_slide`, before the image is embedded. -/
theorem C4_amended_ref_exists (clientAvailable : Bool)
    (t2i : String → Except PyErr (Option PILImage)) (fs : FileSys)
    (prompt : String) (slide_number : Nat) (uuidHex ref : String)
    (h : (generate_image clientAvailable t2i fs prompt slide_number uuidHex).1 =
      some ref) :
    ref ≠ ""
    ∧ (fsLookup
        (generate_image clientAvailable t2i fs prompt slide_number uuidHex).2
        ("static/" ++ ref)).isSome = true := by
  cases clientAvailable with
  | false => simp [generate_image] at h
  | true =>
    rw [generate_image_spec] at h ⊢
    cases ht : t2i (enhancedPrompt prompt) with
    | error e => rw [ht] at h; simp at h
    | ok oimg =>
      rw [ht] at h
      cases oimg with
      | none => simp at h
      | some img =>
        replace h : "images/" ++
            ("slide_" ++ toString slide_number ++ "_" ++ uuidHex ++ ".png") =
            ref := by simpa using h
        subst h
        refine ⟨images_prefix_ne_empty _, ?_⟩
        rw [← String.append_assoc]
        show (fsLookup
          (fsWrite fs
            ("static/images/" ++
              ("slide_" ++ toString slide_number ++ "_" ++ uuidHex ++ ".png"))
            ⟨img.persistSize, img.persistValid⟩)
          ("static/images/" ++
            ("slide_" ++ toString slide_number ++ "_" ++ uuidHex ++ ".png"))).isSome
          = true
        rw [fsLookup_write_self]
        rfl

/-- An image service whose payload persists as a healthy file. -/
def healthyT2I : String → Except PyErr (Option PILImage) :=
  fun _ => Except.ok (some ⟨2048, true⟩)

/-- Witness for the amended C4 at a healthy service payload. -/
theorem C4_amended_ref_exists_witness :
    ("images/slide_1_abc123.png" : String) ≠ ""
    ∧ (fsLookup
        (generate_image true healthyT2I [] ("ocean") 1 ("abc123")).2
        ("static/" ++ "images/slide_1_abc123.png")).isSome = true :=
  C4_amended_ref_exists true healthyT2I [] ("ocean") 1 ("abc123")
    ("images/slide_1_abc123.png") (by rfl)

/-- C7: the image acquirer never raises to its caller (it is a total
function into `Option String × FileSys`); when no service client is
configured it returns the empty reference, and when the service yields no
image (a falsy result, or a call that raises inside the guarded body) it
returns the empty reference without creating any file — the file system
comes back unchanged. -/
theorem C7_acquire_never_raises (clientAvailable : Bool)
    (t2i : String → Except PyErr (Option PILImage)) (fs : FileSys)
    (prompt : String) (slide_number : Nat) (uuidHex : String)
    (h : clientAvailable = false
      ∨ t2i (enhancedPrompt prompt) = Except.ok none
      ∨ (∃ e, t2i (enhancedPrompt prompt) = Except.error e)) :
    generate_image clientAvailable t2i fs prompt slide_number uuidHex =
      (none, fs) := by
  rcases h with h | h | ⟨e, h⟩
  · simp [generate_image, h]
  · cases clientAvailable <;> simp [generate_image, h]
  · cases clientAvailable <;> simp [generate_image, h]

/-- Witness for C7: no configured client, and separately a service that
yields no image, both at concrete inputs. -/
theorem C7_acquire_never_raises_witness :
    generate_image false healthyT2I [] ("a skyline") 3 ("u7") = (none, []) :=
  C7_acquire_never_raises false healthyT2I [] ("a skyline") 3 ("u7")
    (Or.inl rfl)

/-- C8: for every slide record whose image reference is empty, each of the
five layout routines renders exactly its non-image elements — the image
element is simply omitted — and none of them raises or fails the slide
(each is a total function into `List Element`). -/
theorem C8_layouts_tolerate_missing_image (fs : FileSys) (sd : SlideData)
    (h : sd.image_path = none) :
    add_title_slide_content fs sd =
      [Element.textbox
        (if sd.content.length > 100 then sd.content.take 100 ++ "..."
         else sd.content) ⟨2, 2.5, 12, 1⟩]
    ∧ add_content_slide fs sd = [Element.textbox sd.content ⟨0.5, 2, 7, 6⟩]
    ∧ add_image_focus_slide fs sd =
      [Element.textbox
        (if sd.content.length > 150 then sd.content.take 150 ++ "..."
         else sd.content) ⟨1, 8.2, 14, 0.8⟩]
    ∧ add_conclusion_slide fs sd =
      [Element.textbox sd.content ⟨2, 2.5, 12, 4⟩, Element.shape ⟨7, 7, 2, 0.5⟩]
    ∧ add_default_slide fs sd = [Element.textbox sd.content ⟨0.5, 2, 7, 6⟩] := by
  refine ⟨?_, ?_, ?_, ?_, ?_⟩ <;>
    simp [add_title_slide_content, add_content_slide, add_image_focus_slide,
      add_conclusion_slide, add_default_slide, imagePathTruthy, h]

/-- A sample slide record with an empty image reference. -/
def sampleSlide : SlideData :=
  ⟨2, Json.str ("Part 1"), Json.str ("content"), "Body text",
    "an illustration", none⟩

/-- Witness for C8 at the sample record. -/
theorem C8_layouts_tolerate_missing_image_witness :
    add_title_slide_content [] sampleSlide =
      [Element.textbox
        (if sampleSlide.content.length > 100 then
          sampleSlide.content.take 100 ++ "..."
         else sampleSlide.content) ⟨2, 2.5, 12, 1⟩]
    ∧ add_content_slide [] sampleSlide =
      [Element.textbox sampleSlide.content ⟨0.5, 2, 7, 6⟩]
    ∧ add_image_focus_slide [] sampleSlide =
      [Element.textbox
        (if sampleSlide.content.length > 150 then
          sampleSlide.content.take 150 ++ "..."
         else sampleSlide.content) ⟨1, 8.2, 14, 0.8⟩]
    ∧ add_conclusion_slide [] sampleSlide =
      [Element.textbox sampleSlide.content ⟨2, 2.5, 12, 4⟩,
        Element.shape ⟨7, 7, 2, 0.5⟩]
    ∧ add_default_slide [] sampleSlide =
      [Element.textbox sampleSlide.content ⟨0.5, 2, 7, 6⟩] :=
  C8_layouts_tolerate_missing_image [] sampleSlide rfl

/-- C9: the assembler dispatches on the design type to exactly one of the
five layout routines; any design type outside the four known kinds is
rendered by the default routine, which is definitionally the content
routine, so unknown kinds are rendered exactly as `content`. -/
theorem C9_dispatch_unknown_is_content (fs : FileSys) (sd : SlideData)
    (h : jsonEqStr sd.design_type ("title") = false
      ∧ jsonEqStr sd.design_type ("content") = false
      ∧ jsonEqStr sd.design_type ("image_focus") = false
      ∧ jsonEqStr sd.design_type ("conclusion") = false) :
    renderSlideBody fs sd = Except.ok (add_content_slide fs sd)
    ∧ add_default_slide fs sd = add_content_slide fs sd
    ∧ (∀ (fs2 : FileSys) (sd2 : SlideData),
        dispatchSlideBody fs2 sd2 = add_title_slide_content fs2 sd2
        ∨ dispatchSlideBody fs2 sd2 = add_content_slide fs2 sd2
        ∨ dispatchSlideBody fs2 sd2 = add_image_focus_slide fs2 sd2
        ∨ dispatchSlideBody fs2 sd2 = add_conclusion_slide fs2 sd2
        ∨ dispatchSlideBody fs2 sd2 = add_default_slide fs2 sd2) := by
  obtain ⟨h1, h2, h3, h4⟩ := h
  refine ⟨?_, rfl, ?_⟩
  · simp [renderSlideBody, dispatchSlideBody, h1, h2, h3, h4, add_default_slide]
  · intro fs2 sd2
    unfold dispatchSlideBody
    split_ifs <;> simp

/-- A slide record whose design type is outside the four known kinds. -/
def unknownKindSlide : SlideData :=
  ⟨4, Json.str ("Recap"), Json.str ("summary"), "Recap text", "p", none⟩

/-- Witness for C9 at the unknown design type "summary". -/
theorem C9_dispatch_unknown_is_content_witness :
    renderSlideBody [] unknownKindSlide =
      Except.ok (add_content_slide [] unknownKindSlide)
    ∧ add_default_slide [] unknownKindSlide =
      add_content_slide [] unknownKindSlide :=
  ⟨(C9_dispatch_unknown_is_content [] unknownKindSlide
      ⟨by decide, by decide, by decide, by decide⟩).1,
    (C9_dispatch_unknown_is_content [] unknownKindSlide
      ⟨by decide, by decide, by decide, by decide⟩).2.1⟩

/-- Helper: when every slide title is a JSON string, the deck loop succeeds
and renders each slide as its title textbox plus whatever the body renderer
produced, the empty body when the renderer raised. -/
theorem buildDeck_str_titles
    (renderBody : SlideData → Except PyErr (List Element))
    (slides_data : List SlideData)
    (h : ∀ sd ∈ slides_data, ∃ s, sd.title = Json.str s) :
    buildDeck renderBody slides_data =
      Except.ok (slides_data.map (fun sd =>
        ⟨pyStrOf sd.title,
          match renderBody sd with
          | Except.ok es => es
          | Except.error _ => []⟩)) := by
  induction slides_data with
  | nil => rfl
  | cons sd rest ih =>
    obtain ⟨s, hs⟩ := h sd (by simp)
    have ih2 := ih (fun x hx => h x (by simp [hx]))
    simp [buildDeck, hs, asPyStr, pyStrOf, ih2, Bind.bind, Except.bind]

/-- C6: for every sequence of slide records (with string titles, as every
reachable record has) and every body renderer, if the layout routine raises
for any subset of the slides, the assembler catches each failure and
continues: it still returns a document reference, the deck has one rendered
slide per record, each failed slide appears title-only (empty body), and
every other slide carries its fully rendered body. -/
theorem C6_assembler_isolates_slide_failures
    (renderBody : SlideData → Except PyErr (List Element))
    (slides_data : List SlideData) (topic uuid : String)
    (h : ∀ sd ∈ slides_data, ∃ s, sd.title = Json.str s) :
    create_powerpoint_with renderBody slides_data topic uuid =
      some ("presentations/" ++ pptFilename topic uuid,
        slides_data.map (fun sd =>
          ⟨pyStrOf sd.title,
            match renderBody sd with
            | Except.ok es => es
            | Except.error _ => []⟩)) := by
  rw [create_powerpoint_with, buildDeck_str_titles renderBody slides_data h]

/-- The first slide of the C6 witness scenario. -/
def slideAlpha : SlideData :=
  ⟨1, Json.str ("Alpha"), Json.str ("content"), "A body", "pa", none⟩

/-- The second slide of the C6 witness scenario: its layout routine will be
forced to fail. -/
def slideBeta : SlideData :=
  ⟨2, Json.str ("Beta"), Json.str ("content"), "B body", "pb", none⟩

/-- A body renderer forced to raise on the second slide and behaving as the
real dispatch elsewhere. -/
def failOnBetaRender : SlideData → Except PyErr (List Element) :=
  fun sd =>
    if sd.slide_number = 2 then Except.error PyErr.typeError
    else renderSlideBody [] sd

/-- Witness for C6: with the renderer failing on the second slide, the
document is still produced, the first slide fully rendered, the second
title-only. -/
theorem C6_assembler_isolates_slide_failures_witness :
    create_powerpoint_with failOnBetaRender [slideAlpha, slideBeta]
        ("Demo") ("u1") =
      some ("presentations/" ++ pptFilename ("Demo") ("u1"),
        [⟨"Alpha", [Element.textbox ("A body") ⟨0.5, 2, 7, 6⟩]⟩,
          ⟨"Beta", []⟩]) := by
  have hc := C6_assembler_isolates_slide_failures failOnBetaRender
    [slideAlpha, slideBeta] ("Demo") ("u1")
    (by
      intro sd hsd
      rcases List.mem_cons.mp hsd with rfl | hsd
      · exact ⟨"Alpha", rfl⟩
      rcases List.mem_cons.mp hsd with rfl | hsd
      · exact ⟨"Beta", rfl⟩
      · exact absurd hsd (List.not_mem_nil sd))
  rw [hc]
  rfl

/-- Helper: the saved document reference always has the `presentations/`
prefix, hence is non-empty. -/
theorem presentations_prefix_ne_empty (s : String) :
    "presentations/" ++ s ≠ "" := by
  intro h
  have hlen := congrArg String.length h
  simp [String.length_append] at hlen
  exact absurd hlen.1 (by decide)

/-- C2: for topic "Renewable Energy" and slide count 3, when every external
call fails — the outline, content and image-prompt model calls all raise
(any error values), and either the image client is unavailable or every
image-service call raises — the pipeline entry point still returns success,
with exactly 3 slide records whose layout kinds are title, content (an
instance of "content or image_focus"), conclusion, every image reference
empty, and a non-empty saved document reference. -/
theorem C2_pipeline_survives_total_service_failure
    (jl : String → Except PyErr Json) (inv : String → Except PyErr String)
    (einv : String → PyErr) (clientAvailable : Bool)
    (t2i : String → Except PyErr (Option PILImage)) (et2i : String → PyErr)
    (fs : FileSys) (uuidImg : Nat → String) (uuidPpt : String)
    (hinv : ∀ p, inv p = Except.error (einv p))
    (ht2i : ∀ p, t2i p = Except.error (et2i p)) :
    (let r := (generate_presentation jl inv clientAvailable t2i fs uuidImg
        uuidPpt ("Renewable Energy") 3).1;
      r.success = true
      ∧ r.slides_data.length = 3
      ∧ r.slides_data.map SlideData.design_type =
          [Json.str ("title"), Json.str ("content"), Json.str ("conclusion")]
      ∧ r.slides_data.map SlideData.image_path = [none, none, none]
      ∧ r.ppt_path =
          some ("presentations/" ++ pptFilename ("Renewable Energy") uuidPpt)
      ∧ "presentations/" ++ pptFilename ("Renewable Energy") uuidPpt ≠ "") := by
  have hfi : inv = fun p => Except.error (einv p) := funext hinv
  have hft : t2i = fun p => Except.error (et2i p) := funext ht2i
  subst hfi
  subst hft
  cases clientAvailable with
  | false => exact ⟨rfl, rfl, rfl, rfl, rfl, presentations_prefix_ne_empty _⟩
  | true => exact ⟨rfl, rfl, rfl, rfl, rfl, presentations_prefix_ne_empty _⟩

/-- A model call that always raises. -/
def failInvoke : String → Except PyErr String :=
  fun _ => Except.error (PyErr.invokeFail ("model call failed"))

/-- An image-service call that always raises. -/
def failT2I : String → Except PyErr (Option PILImage) :=
  fun _ => Except.error (PyErr.invokeFail ("image service failed"))

/-- Witness for C2 with every external service stubbed to fail. -/
theorem C2_pipeline_survives_total_service_failure_witness :
    (let r := (generate_presentation failJsonLoads failInvoke true failT2I []
        (fun _ => "imguuid") ("pptuuid") ("Renewable Energy") 3).1;
      r.success = true
      ∧ r.slides_data.length = 3
      ∧ r.slides_data.map SlideData.design_type =
          [Json.str ("title"), Json.str ("content"), Json.str ("conclusion")]
      ∧ r.slides_data.map SlideData.image_path = [none, none, none]
      ∧ r.ppt_path =
          some ("presentations/" ++
            pptFilename ("Renewable Energy") ("pptuuid"))
      ∧ "presentations/" ++ pptFilename ("Renewable Energy") ("pptuuid")
        ≠ "") :=
  C2_pipeline_survives_total_service_failure failJsonLoads failInvoke
    (fun _ => PyErr.invokeFail ("model call failed")) true failT2I
    (fun _ => PyErr.invokeFail ("image service failed")) []
    (fun _ => "imguuid") ("pptuuid") (fun _ => rfl) (fun _ => rfl)

end PPTGen
